import Mathlib

/-!
Shallow embedding of the retry engine, provider registry, refusal detector
and event broadcaster of the `codex-infinity` repository, together with
theorems settling the frozen claims about them.

Sources embedded:
- `codex-rs/codex-client/src/retry.rs` (retry policy, classification,
  backoff, retry-after handling, `run_with_retry`);
- `codex-rs/core/src/refusal_fallback.rs` (`is_refusal`);
- `codex-rs/core/src/model_provider_info.rs` (`api_key`,
  `request_max_retries`, `stream_max_retries`);
- `codex-rs/http-server/src/lib.rs` (event broadcast round of the
  conversation producer loop, `stream_events` subscription handler).

Machine integers (`u64`, `u32`) are modelled as `Nat` with explicit
`% 2 ^ 64` / `% 2 ^ 32` where Rust casts or saturating arithmetic matter.
`f64` quantities that the code compares or scales (Retry-After seconds,
the backoff jitter factor) are modelled as exact rationals; the jitter
drawn from `rand::rng().random_range(0.9..1.1)` becomes an explicit
parameter `j` with `9/10 ≤ j < 11/10`.
-/

namespace Codex

/-! ### JSON values (model of `serde_json::Value` as used by the retry code)

`is_non_retryable_429` parses the 429 body with `serde_json::from_str`
and then walks the resulting `Value` with `get`/`as_str`. The string →
JSON parse lives in the external `serde_json` crate, so the body is
modelled as its parse outcome: either invalid JSON or a structured value. -/

inductive JVal : Type where
  | null : JVal
  | bool (b : Bool) : JVal
  | num (q : ℚ) : JVal
  | str (s : String) : JVal
  | arr (elems : List JVal) : JVal
  | obj (fields : List (String × JVal)) : JVal

/-- `Value::get(key)`: field lookup on objects, `None` on anything else.
A parsed `serde_json` map has unique keys, so first-match lookup agrees
with it. -/
def JVal.get : JVal → String → Option JVal
  | JVal.obj fields, k => (fields.find? (fun p => p.1 = k)).map (fun p => p.2)
  | _, _ => none

/-- `Value::as_str`: `Some` exactly on JSON strings. -/
def JVal.as_str : JVal → Option String
  | JVal.str s => some s
  | _ => none

/-- Parse outcome of a 429 response body (`serde_json::from_str::<Value>`). -/
inductive BodyContent : Type where
  | invalid : BodyContent
  | json (v : JVal) : BodyContent

/-! ### `codex-client/src/retry.rs` -/

/-- Model of the `RETRY_AFTER` slot of an `http::HeaderMap`:
absent, present but failing `to_str`/`parse::<f64>`, or parsed to a
number of seconds (exact rational in place of `f64`). -/
inductive RetryAfterValue : Type where
  | missing : RetryAfterValue
  | unparsable : RetryAfterValue
  | parsed (seconds : ℚ) : RetryAfterValue
deriving DecidableEq

/-- `TransportError` from `codex-client/src/error.rs` as used by
`retry.rs`: `Http { status, body, headers, .. }`, `Timeout`,
`Network(_)`, `RetryLimit` (a unit variant: `run_with_retry` returns
`Err(TransportError::RetryLimit)` with no payload), plus `Other` standing
for the remaining variants matched by the `_ => false` arm of
`should_retry`. The status code is a `Nat`; the body is its JSON parse
outcome; the headers keep only their `RETRY_AFTER` slot, the only one
the retry code reads. -/
inductive TransportError : Type where
  | Http (status : Nat) (body : Option BodyContent) (headers : Option RetryAfterValue) : TransportError
  | Timeout : TransportError
  | Network (msg : String) : TransportError
  | RetryLimit : TransportError
  | Other (tag : Nat) : TransportError

structure RetryOn : Type where
  retry_429 : Bool
  retry_5xx : Bool
  retry_transport : Bool
deriving DecidableEq

/-- `RetryPolicy { max_attempts, base_delay, retry_on }`; `base_delay`
is kept in integral milliseconds, the granularity at which every caller
constructs it (`Duration::from_millis`). -/
structure RetryPolicy : Type where
  max_attempts : Nat
  base_delay : Nat
  retry_on : RetryOn
deriving DecidableEq

/-- `is_non_retryable_429(body: Option<&str>)`: `false` when the body is
absent or not valid JSON or has no `error` field; otherwise `true` iff
`error.type ∈ {usage_limit_reached, usage_not_included}` or
`error.code ∈ {insufficient_quota, quota_exceeded}`. -/
def is_non_retryable_429 (body : Option BodyContent) : Bool :=
  match body with
  | none => false
  | some BodyContent.invalid => false
  | some (BodyContent.json v) =>
    match v.get "error" with
    | none => false
    | some err =>
      let error_type := (err.get "type").bind JVal.as_str
      let error_code := (err.get "code").bind JVal.as_str
      (error_type = some "usage_limit_reached" || error_type = some "usage_not_included")
        || (error_code = some "insufficient_quota" || error_code = some "quota_exceeded")

/-- `RetryOn::should_retry(err, attempt, max_attempts)`:
`false` once `attempt >= max_attempts`; HTTP 429 retried iff
`retry_429 && !is_non_retryable_429(body)`; other HTTP statuses retried
iff `retry_5xx && status.is_server_error()` (500..=599);
`Timeout`/`Network` retried iff `retry_transport`; everything else
never. -/
def RetryOn.should_retry (ro : RetryOn) (err : TransportError)
    (attempt max_attempts : Nat) : Bool :=
  if max_attempts ≤ attempt then false
  else
    match err with
    | TransportError.Http status body _ =>
      if status = 429 then ro.retry_429 && !is_non_retryable_429 body
      else ro.retry_5xx && (500 ≤ status && status < 600)
    | TransportError.Timeout => ro.retry_transport
    | TransportError.Network _ => ro.retry_transport
    | _ => false

def MAX_BACKOFF_MS : Nat := 120000

/-- `backoff(base, attempt)`, in milliseconds, with the random jitter
factor made an explicit parameter `j` (drawn from `0.9..1.1`).
Attempt 0 returns `base` unchanged. Otherwise the exponent is
`attempt as u32 - 1` (a truncating cast followed by wrapping `u32`
subtraction, as compiled in release mode), the doubling uses
`2u64.saturating_pow` and `saturating_mul`, the product is capped at
`MAX_BACKOFF_MS`, and `(raw as f64 * jitter) as u64` truncates the
jittered value to whole milliseconds (`Int.toNat ∘ Int.floor` on a
non-negative value). -/
def backoff (base attempt : Nat) (j : ℚ) : Nat :=
  if attempt = 0 then base
  else
    let e := (attempt % 2 ^ 32 + (2 ^ 32 - 1)) % 2 ^ 32
    let exp := min (2 ^ e) (2 ^ 64 - 1)
    let raw := min (min ((base % 2 ^ 64) * exp) (2 ^ 64 - 1)) MAX_BACKOFF_MS
    (Int.floor ((raw : ℚ) * j)).toNat

/-- `retry_after_from_headers`: the `RETRY_AFTER` header value, parsed
as seconds; `None` when absent, unparsable, or negative
(`is_sign_negative`). Converted here to milliseconds so all delays share
a unit. -/
def retry_after_from_headers : RetryAfterValue → Option ℚ
  | RetryAfterValue.missing => none
  | RetryAfterValue.unparsable => none
  | RetryAfterValue.parsed s => if s < 0 then none else some (s * 1000)

/-- `retry_delay(policy, err, attempt)` in milliseconds: a 429 with a
usable Retry-After header overrides the computed backoff, capped at
`MAX_BACKOFF_MS`; every other case falls back to
`backoff(policy.base_delay, attempt)`. -/
def retry_delay (policy : RetryPolicy) (err : TransportError)
    (attempt : Nat) (j : ℚ) : ℚ :=
  match err with
  | TransportError.Http status _ (some h) =>
    if status = 429 then
      match retry_after_from_headers h with
      | some d => min d (MAX_BACKOFF_MS : ℚ)
      | none => (backoff policy.base_delay attempt j : ℚ)
    else (backoff policy.base_delay attempt j : ℚ)
  | _ => (backoff policy.base_delay attempt j : ℚ)

/-- The `for attempt in 0..=max_attempts` loop of `run_with_retry`,
with fuel `max_attempts + 1 - attempt`. The second component counts the
invocations of `op`. The sleep between attempts and the per-attempt
request rebuild (`make_req`) do not affect the result or the count and
are omitted. -/
def runAttempts {T : Type} (policy : RetryPolicy)
    (op : Nat → Except TransportError T) :
    Nat → Nat → Except TransportError T × Nat
  | 0, _ => (Except.error TransportError.RetryLimit, 0)
  | fuel + 1, attempt =>
    match op attempt with
    | Except.ok v => (Except.ok v, 1)
    | Except.error e =>
      if policy.retry_on.should_retry e attempt policy.max_attempts then
        let r := runAttempts policy op fuel (attempt + 1)
        (r.1, r.2 + 1)
      else (Except.error e, 1)

/-- `run_with_retry(policy, make_req, op)`: the result together with the
number of times `op` was invoked. -/
def run_with_retry {T : Type} (policy : RetryPolicy)
    (op : Nat → Except TransportError T) : Except TransportError T × Nat :=
  runAttempts policy op (policy.max_attempts + 1) 0

/-- The `Timeout`/`Network` classification used by the
`TransportError::Timeout | TransportError::Network(_)` match arm. -/
def TransportError.is_transport : TransportError → Bool
  | TransportError.Timeout => true
  | TransportError.Network _ => true
  | _ => false

/-! ### `core/src/refusal_fallback.rs` -/

def REFUSAL_WORD_LIMIT : Nat := 100

/-- The apostrophe character, built from its code point so the lexicon
strings below can be assembled by concatenation. -/
def apos : String := String.mk [Char.ofNat 39]

/-- `REFUSAL_INDICATORS`, the fixed refusal-phrase lexicon. -/
def REFUSAL_INDICATORS : List String :=
  ["sorry",
   "can" ++ apos ++ "t help",
   "cannot help",
   "i" ++ apos ++ "m unable",
   "i am unable",
   "not able to",
   "i cannot",
   "i can" ++ apos ++ "t",
   "unable to assist",
   "cannot assist",
   "can" ++ apos ++ "t assist",
   "won" ++ apos ++ "t be able",
   "will not be able",
   "apologize",
   "unfortunately",
   "i" ++ apos ++ "m not able",
   "i am not able",
   "decline",
   "refuse"]

/-- Counts maximal whitespace-free runs, the value of
`split_whitespace().count()`. The `inWord` flag records whether the
previous character was part of a word. (Both Rust and this model split
on `char::is_whitespace`; the inputs at issue are ASCII, where the two
whitespace classes coincide.) -/
def countWords : List Char → Bool → Nat
  | [], _ => 0
  | c :: rest, inWord =>
    if c.isWhitespace then countWords rest false
    else (if inWord then 0 else 1) + countWords rest true

def word_count (s : String) : Nat := countWords s.toList false

/-- `str::contains(needle)`: some suffix of the haystack starts with the
needle. -/
def contains_substr (needle hay : String) : Bool :=
  hay.toList.tails.any (fun t => needle.toList.isPrefixOf t)

/-- `str::to_lowercase()`, character by character (Unicode and ASCII
lowercasing agree on the ASCII lexicon and inputs at issue). -/
def to_lowercase (s : String) : String :=
  String.mk (s.data.map Char.toLower)

/-- `is_refusal(response_text, had_tool_calls)`: `false` on any tool
call; `false` at `REFUSAL_WORD_LIMIT` (100) or more words; otherwise
`true` iff the lowercased text contains one of `REFUSAL_INDICATORS`. -/
def is_refusal (response_text : String) (had_tool_calls : Bool) : Bool :=
  if had_tool_calls then false
  else if REFUSAL_WORD_LIMIT ≤ word_count response_text then false
  else REFUSAL_INDICATORS.any (fun ind => contains_substr ind (to_lowercase response_text))

/-! ### `core/src/model_provider_info.rs`

The process environment is passed explicitly as `env : String → Option
String` (`std::env::var`, read fresh on every call). Only the fields of
`ModelProviderInfo` that the embedded functions read are kept. -/

def DEFAULT_STREAM_MAX_RETRIES : Nat := 60
def DEFAULT_REQUEST_MAX_RETRIES : Nat := 100
def MAX_STREAM_MAX_RETRIES : Nat := 100
def MAX_REQUEST_MAX_RETRIES : Nat := 200

def ANTHROPIC_API_KEY_ENV_VAR : String := "ANTHROPIC_API_KEY"
def ANTHROPIC_OAUTH_TOKEN_ENV_VAR : String := "ANTHROPIC_OAUTH_TOKEN"

structure ModelProviderInfo : Type where
  env_key : Option String
  env_key_instructions : Option String
  request_max_retries : Option Nat
  stream_max_retries : Option Nat
deriving DecidableEq

/-- `str::trim()`: whitespace stripped from both ends. -/
def trim (s : String) : String :=
  String.mk (((s.data.dropWhile Char.isWhitespace).reverse.dropWhile
    Char.isWhitespace).reverse)

/-- `read_env_value(var)`: the variable's value trimmed, dropped when
the trimmed value is empty. -/
def read_env_value (env : String → Option String) (var : String) : Option String :=
  ((env var).map (fun v => trim v)).filter (fun v => !v.data.isEmpty)

/-- Outcome of `ModelProviderInfo::api_key`: `Ok(Option<String>)` or
`CodexErr::EnvVar(EnvVarError { var, instructions })`. -/
inductive ApiKeyResult : Type where
  | ok (key : Option String) : ApiKeyResult
  | envVarErr (var : String) (instructions : Option String) : ApiKeyResult
deriving DecidableEq

/-- `ModelProviderInfo::api_key()`: no declared `env_key` yields
`Ok(None)`; the Anthropic variables consult `ANTHROPIC_OAUTH_TOKEN`
first, falling back to `ANTHROPIC_API_KEY`; any other declared variable
is read directly; a missing/blank value raises `EnvVar` with the
variable name(s) and the provider's instructions. -/
def ModelProviderInfo.api_key (p : ModelProviderInfo)
    (env : String → Option String) : ApiKeyResult :=
  match p.env_key with
  | some env_key =>
    if env_key = ANTHROPIC_API_KEY_ENV_VAR ∨ env_key = ANTHROPIC_OAUTH_TOKEN_ENV_VAR then
      match (read_env_value env ANTHROPIC_OAUTH_TOKEN_ENV_VAR).or
          (read_env_value env ANTHROPIC_API_KEY_ENV_VAR) with
      | some token => ApiKeyResult.ok (some token)
      | none =>
        ApiKeyResult.envVarErr
          (ANTHROPIC_OAUTH_TOKEN_ENV_VAR ++ " or " ++ ANTHROPIC_API_KEY_ENV_VAR)
          p.env_key_instructions
    else
      match read_env_value env env_key with
      | some value => ApiKeyResult.ok (some value)
      | none => ApiKeyResult.envVarErr env_key p.env_key_instructions
  | none => ApiKeyResult.ok none

/-- `ModelProviderInfo::request_max_retries()` (the method): the
configured count, defaulted then clamped to the hard ceiling. -/
def ModelProviderInfo.effective_request_max_retries (p : ModelProviderInfo) : Nat :=
  min (p.request_max_retries.getD DEFAULT_REQUEST_MAX_RETRIES) MAX_REQUEST_MAX_RETRIES

/-- `ModelProviderInfo::stream_max_retries()` (the method). -/
def ModelProviderInfo.effective_stream_max_retries (p : ModelProviderInfo) : Nat :=
  min (p.stream_max_retries.getD DEFAULT_STREAM_MAX_RETRIES) MAX_STREAM_MAX_RETRIES

/-! ### `http-server/src/lib.rs`

The subscriber registry `event_streams : HashMap<ConversationId,
Vec<Sender<String>>>` is modelled as a function from conversation ids to
optional subscriber lists. A subscriber abstracts one
`tokio::sync::mpsc::Sender<String>`: `closedAtPrune` is the value
`is_closed()` returns at the `retain` preceding the send loop, and
`sendState` the channel's condition from the moment the send loop
reaches it onward. `send(..).await` on a tokio bounded channel returns
`Err` exactly when the channel is closed; on a full but open channel it
does NOT fail — the await waits for capacity, and if the subscriber
never drains, the producer loop is stuck at that subscriber
(`sendState = full` models a full, never-drained channel). Closing is
permanent, so `closedAtPrune = true` forces `sendState = closed` for
real channels; that monotonicity is a hypothesis of the broadcast
theorem. -/

/-- Condition of a subscriber's channel when the send loop reaches it:
capacity available (`ready`, the send completes), full and never
drained (`full`, the `await` blocks forever), or closed (`closed`, the
send returns `Err`). -/
inductive ChannelState : Type where
  | ready : ChannelState
  | full : ChannelState
  | closed : ChannelState
deriving DecidableEq

structure Subscriber : Type where
  id : Nat
  closedAtPrune : Bool
  sendState : ChannelState
deriving DecidableEq

def Registry : Type := Nat → Option (List Subscriber)

def eraseReg (reg : Registry) (c : Nat) : Registry :=
  fun d => if d = c then none else reg d

def setReg (reg : Registry) (c : Nat) (l : List Subscriber) : Registry :=
  fun d => if d = c then some l else reg d

/-- Result of the sequential send loop (lib.rs lines 271–275) over the
copied sender list: either every send returned (`completed`, with the
list of subscribers that received the event and whether any send
failed), or the loop is blocked awaiting capacity on a full, undrained
channel (`blocked`, with the deliveries made before the blockage). -/
inductive SendResult : Type where
  | completed (delivered : List Subscriber) (failed : Bool) : SendResult
  | blocked (delivered : List Subscriber) (blockedOn : Subscriber) : SendResult
deriving DecidableEq

/-- The `for sender in senders { if sender.send(..).await.is_err()
{ prune_after_send = true } }` loop: a ready channel receives the
event; a closed channel fails the send and marks pruning; a full,
undrained channel blocks the `await`, freezing the loop there. -/
def sendAll : List Subscriber → SendResult
  | [] => SendResult.completed [] false
  | s :: rest =>
    match s.sendState with
    | ChannelState.ready =>
      match sendAll rest with
      | SendResult.completed d f => SendResult.completed (s :: d) f
      | SendResult.blocked d b => SendResult.blocked (s :: d) b
    | ChannelState.closed =>
      match sendAll rest with
      | SendResult.completed d _ => SendResult.completed d true
      | SendResult.blocked d b => SendResult.blocked d b
    | ChannelState.full => SendResult.blocked [] s

/-- Outcome of one broadcast round: the registry as left by the round
and who received the event; `stalled` when the round never finishes
because a send is blocked on a full channel — the post-send prune then
never runs, and the registry stays as the pre-send prune left it. -/
inductive RoundOutcome : Type where
  | completed (reg : Registry) (delivered : List Subscriber) : RoundOutcome
  | stalled (reg : Registry) (delivered : List Subscriber)
      (blockedOn : Subscriber) : RoundOutcome

def RoundOutcome.registry : RoundOutcome → Registry
  | RoundOutcome.completed r _ => r
  | RoundOutcome.stalled r _ _ => r

def RoundOutcome.delivered : RoundOutcome → List Subscriber
  | RoundOutcome.completed _ d => d
  | RoundOutcome.stalled _ d _ => d

def RoundOutcome.isStalled : RoundOutcome → Bool
  | RoundOutcome.completed _ _ => false
  | RoundOutcome.stalled _ _ _ => true

/-- One broadcast round of the producer loop spawned by
`create_conversation` (lib.rs lines 246–297): under the write lock,
prune closed senders and drop the entry when the list empties, copying
the survivors out; run the send loop over the copy; if it completed and
some send failed, prune closed senders again and drop the entry when it
empties; if the send loop blocked on a full channel, the round stalls
there and no post-send prune happens. -/
def broadcastRound (reg : Registry) (c : Nat) : RoundOutcome :=
  match reg c with
  | none => RoundOutcome.completed reg []
  | some senders =>
    let kept := senders.filter (fun s => !s.closedAtPrune)
    if kept.isEmpty then RoundOutcome.completed (eraseReg reg c) []
    else
      let reg1 := setReg reg c kept
      match sendAll kept with
      | SendResult.blocked d b => RoundOutcome.stalled reg1 d b
      | SendResult.completed d failed =>
        if failed then
          let k2 := kept.filter (fun s => !(s.sendState == ChannelState.closed))
          if k2.isEmpty then RoundOutcome.completed (eraseReg reg1 c) d
          else RoundOutcome.completed (setReg reg1 c k2) d
        else RoundOutcome.completed reg1 d

/-- Error results of the `stream_events` handler. -/
inductive StreamError : Type where
  | badRequest : StreamError
  | notFound : StreamError
deriving DecidableEq

/-- The `stream_events` SSE handler (lines 413–458): `parsed` is the
outcome of `ConversationId::from_string` on the path id and `known` the
outcome of `conversation_manager.get_conversation` (both external to
this crate); `tx` is the freshly created channel. A malformed id yields
`BAD_REQUEST`, an unknown conversation `NOT_FOUND`, both leaving the
registry untouched; otherwise `tx` is appended to the conversation's
entry (`entry(..).or_default().push(tx)`). -/
def stream_events (parsed : Option Nat) (known : Nat → Bool)
    (reg : Registry) (tx : Subscriber) : Except StreamError Nat × Registry :=
  match parsed with
  | none => (Except.error StreamError.badRequest, reg)
  | some cid =>
    if known cid then
      (Except.ok cid, setReg reg cid (((reg cid).getD []) ++ [tx]))
    else (Except.error StreamError.notFound, reg)

/-! ## Helper lemmas -/

/-- Unfolding of `backoff` on a non-zero attempt. -/
lemma backoff_succ (base a : Nat) (j : ℚ) (h : a ≠ 0) :
    backoff base a j =
      (Int.floor (((min (min ((base % 2 ^ 64) *
        (min (2 ^ ((a % 2 ^ 32 + (2 ^ 32 - 1)) % 2 ^ 32)) (2 ^ 64 - 1)))
        (2 ^ 64 - 1)) MAX_BACKOFF_MS : ℕ) : ℚ) * j)).toNat := by
  unfold backoff
  rw [if_neg h]

/-- For attempts below the `u32` cast boundary and a base below the
`u64` boundary, the saturating arithmetic computes exactly
`min (base * 2 ^ (a - 1)) MAX_BACKOFF_MS`. -/
lemma backoff_raw_eq (base a : Nat) (hb : base < 2 ^ 64) (h1 : 1 ≤ a)
    (h2 : a < 2 ^ 32) :
    min (min ((base % 2 ^ 64) *
        (min (2 ^ ((a % 2 ^ 32 + (2 ^ 32 - 1)) % 2 ^ 32)) (2 ^ 64 - 1)))
        (2 ^ 64 - 1)) MAX_BACKOFF_MS
      = min (base * 2 ^ (a - 1)) MAX_BACKOFF_MS := by
  have hmod : base % 2 ^ 64 = base := Nat.mod_eq_of_lt hb
  have hexp : (a % 2 ^ 32 + (2 ^ 32 - 1)) % 2 ^ 32 = a - 1 := by
    have ha : a % 2 ^ 32 = a := Nat.mod_eq_of_lt h2
    rw [ha]
    have h32 : (2 : ℕ) ^ 32 = 4294967296 := by norm_num
    rw [h32]
    rw [h32] at h2
    omega
  rw [hmod, hexp]
  have h120 : MAX_BACKOFF_MS ≤ 2 ^ 64 - 1 := by norm_num [MAX_BACKOFF_MS]
  by_cases hp : 2 ^ (a - 1) ≤ 2 ^ 64 - 1
  · rw [min_eq_left hp, min_assoc, min_eq_right h120]
  · push_neg at hp
    rw [min_eq_right (le_of_lt hp)]
    by_cases hb0 : base = 0
    · subst hb0; simp
    · have hbase : 0 < base := Nat.pos_of_ne_zero hb0
      have hL : MAX_BACKOFF_MS ≤ base * (2 ^ 64 - 1) :=
        le_trans h120 (Nat.le_mul_of_pos_left _ hbase)
      have hR : MAX_BACKOFF_MS ≤ base * 2 ^ (a - 1) :=
        le_trans (le_trans h120 (le_of_lt hp)) (Nat.le_mul_of_pos_left _ hbase)
      rw [min_eq_right (le_min hL h120), min_eq_right hR]

/-- Bounds on the truncated jittered value: the `as u64` cast of
`raw as f64 * jitter` lies strictly above `0.9 * raw - 1` and at most
`1.1 * raw` when the jitter is drawn from `[0.9, 1.1)`. -/
lemma floor_jitter_bounds (raw : Nat) (j : ℚ) (hj1 : 9 / 10 ≤ j)
    (hj2 : j < 11 / 10) :
    (9 : ℚ) / 10 * raw - 1 < ((Int.floor ((raw : ℚ) * j)).toNat : ℚ) ∧
      ((Int.floor ((raw : ℚ) * j)).toNat : ℚ) ≤ (11 : ℚ) / 10 * raw := by
  have hjpos : (0 : ℚ) ≤ j := le_trans (by norm_num) hj1
  have hrawpos : (0 : ℚ) ≤ (raw : ℚ) := by positivity
  have hx0 : (0 : ℚ) ≤ (raw : ℚ) * j := mul_nonneg hrawpos hjpos
  have hfl0 : 0 ≤ Int.floor ((raw : ℚ) * j) := Int.floor_nonneg.mpr hx0
  have hcast : ((Int.floor ((raw : ℚ) * j)).toNat : ℚ)
      = ((Int.floor ((raw : ℚ) * j) : ℤ) : ℚ) := by
    exact_mod_cast congrArg (fun z : ℤ => (z : ℚ)) (Int.toNat_of_nonneg hfl0)
  constructor
  · rw [hcast]
    have h1 : (9 : ℚ) / 10 * raw ≤ j * raw :=
      mul_le_mul_of_nonneg_right hj1 hrawpos
    have h2 : (raw : ℚ) * j - 1 < Int.floor ((raw : ℚ) * j) :=
      Int.sub_one_lt_floor _
    nlinarith [h1, h2]
  · rw [hcast]
    have h1 : j * raw ≤ (11 : ℚ) / 10 * raw :=
      mul_le_mul_of_nonneg_right (le_of_lt hj2) hrawpos
    have h2 : ((Int.floor ((raw : ℚ) * j) : ℤ) : ℚ) ≤ (raw : ℚ) * j :=
      Int.floor_le _
    nlinarith [h1, h2]

/-- A capped raw delay jittered by `j < 1.1` and truncated stays below
132000 ms. -/
lemma toNat_floor_jitter_lt (raw : Nat) (j : ℚ) (hraw : raw ≤ MAX_BACKOFF_MS)
    (hj1 : 9 / 10 ≤ j) (hj2 : j < 11 / 10) :
    (Int.floor ((raw : ℚ) * j)).toNat < 132000 := by
  have hjpos : (0 : ℚ) ≤ j := le_trans (by norm_num) hj1
  have hx0 : (0 : ℚ) ≤ (raw : ℚ) * j := mul_nonneg (by positivity) hjpos
  have hfl0 : 0 ≤ Int.floor ((raw : ℚ) * j) := Int.floor_nonneg.mpr hx0
  have hcast : ((Int.floor ((raw : ℚ) * j)).toNat : ℚ)
      = ((Int.floor ((raw : ℚ) * j) : ℤ) : ℚ) := by
    exact_mod_cast congrArg (fun z : ℤ => (z : ℚ)) (Int.toNat_of_nonneg hfl0)
  have hfle : ((Int.floor ((raw : ℚ) * j) : ℤ) : ℚ) ≤ (raw : ℚ) * j :=
    Int.floor_le _
  have hrawq : (raw : ℚ) ≤ 120000 := by
    have h : raw ≤ 120000 := hraw
    exact_mod_cast Nat.cast_le.mpr h
  have hq : ((Int.floor ((raw : ℚ) * j)).toNat : ℚ) < 132000 := by
    rw [hcast]
    nlinarith [hfle, hrawq, hjpos, hj2]
  exact_mod_cast hq

/-- `should_retry` is `false` once the attempt budget is spent. -/
lemma should_retry_ge (ro : RetryOn) (e : TransportError) (a m : Nat)
    (h : m ≤ a) : ro.should_retry e a m = false := by
  unfold RetryOn.should_retry
  rw [if_pos h]

/-- Below the budget, a transport-level failure is retried iff
`retry_transport`. -/
lemma should_retry_transport_eq (ro : RetryOn) {e : TransportError}
    (he : e.is_transport = true) (a m : Nat) (h : a < m) :
    ro.should_retry e a m = ro.retry_transport := by
  unfold RetryOn.should_retry
  rw [if_neg (by omega)]
  cases e with
  | Timeout => rfl
  | Network msg => rfl
  | Http status body headers => simp [TransportError.is_transport] at he
  | RetryLimit => simp [TransportError.is_transport] at he
  | Other tag => simp [TransportError.is_transport] at he

/-- When every attempt fails with a retryable transport error, the loop
runs its full fuel and ends with the final attempt's own error. -/
lemma runAttempts_always_transport {T : Type} (policy : RetryPolicy)
    (op : Nat → Except TransportError T) (errf : Nat → TransportError)
    (hop : ∀ n, op n = Except.error (errf n))
    (htr : ∀ n, (errf n).is_transport = true)
    (hflag : policy.retry_on.retry_transport = true) :
    ∀ fuel attempt, 1 ≤ fuel → attempt + fuel = policy.max_attempts + 1 →
      runAttempts policy op fuel attempt
        = (Except.error (errf policy.max_attempts), fuel) := by
  intro fuel
  induction fuel with
  | zero => intro attempt h1 h2; omega
  | succ n ih =>
    intro attempt h1 h2
    by_cases hn : n = 0
    · subst hn
      have ha : attempt = policy.max_attempts := by omega
      simp only [runAttempts, hop attempt,
        should_retry_ge policy.retry_on (errf attempt) attempt policy.max_attempts (by omega)]
      simp [ha]
    · have hlt : attempt < policy.max_attempts := by omega
      simp only [runAttempts, hop attempt,
        should_retry_transport_eq policy.retry_on (htr attempt) attempt
          policy.max_attempts hlt, hflag]
      simp only [if_true]
      rw [ih (attempt + 1) (by omega) (by omega)]

/-! ## Claims -/

/-- C1 (amended): with `max_attempts = 3`, `retry_transport` enabled and
an issue function failing with a transport-level error (Timeout or
NetworkError) on every attempt, `run_with_retry` invokes the issue
function exactly 4 times (attempts 0 through 3) and returns the final
attempt's underlying transport error itself — not `RetryLimit`: the
final attempt's failure is classified non-retryable (budget spent) and
returned directly, so the `RetryLimit` fallthrough is unreachable, and
`RetryLimit` is a payload-free variant that wraps nothing. -/
theorem C1_retry_exhaustion {T : Type} (policy : RetryPolicy)
    (op : Nat → Except TransportError T) (errf : Nat → TransportError)
    (hop : ∀ n, op n = Except.error (errf n))
    (htr : ∀ n, (errf n).is_transport = true)
    (hflag : policy.retry_on.retry_transport = true)
    (hmax : policy.max_attempts = 3) :
    run_with_retry policy op = (Except.error (errf 3), 4) := by
  unfold run_with_retry
  rw [runAttempts_always_transport policy op errf hop htr hflag
    (policy.max_attempts + 1) 0 (by omega) (by omega)]
  rw [hmax]

/-- C1 counterexample: with `max_attempts = 3` and an always-Timeout
issue function under `retry_transport`, the issue function runs 4 times
but the result is the underlying `Timeout` error, not `RetryLimit` as
the claim states. -/
theorem C1_counterexample :
    (run_with_retry (T := Unit) ⟨3, 100, ⟨false, false, true⟩⟩
        (fun _ => Except.error TransportError.Timeout)).2 = 4 ∧
    (run_with_retry (T := Unit) ⟨3, 100, ⟨false, false, true⟩⟩
        (fun _ => Except.error TransportError.Timeout)).1
      = Except.error TransportError.Timeout ∧
    (run_with_retry (T := Unit) ⟨3, 100, ⟨false, false, true⟩⟩
        (fun _ => Except.error TransportError.Timeout)).1
      ≠ Except.error TransportError.RetryLimit :=
  ⟨rfl, rfl, fun h => TransportError.noConfusion (Except.error.inj h)⟩

/-- C1 witness: the amended statement at the concrete always-Timeout
issue function. -/
theorem C1_witness :
    run_with_retry (T := Unit) ⟨3, 100, ⟨false, false, true⟩⟩
        (fun _ => Except.error TransportError.Timeout)
      = (Except.error TransportError.Timeout, 4) :=
  C1_retry_exhaustion ⟨3, 100, ⟨false, false, true⟩⟩ _
    (fun _ => TransportError.Timeout) (fun _ => rfl) (fun _ => rfl) rfl rfl

/-- C2 (amended): below the attempt budget, an HTTP 429 failure is
retried iff the `retry_429` flag is set AND the body carries none of the
fixed non-retryable quota markers (the flag does matter, contrary to the
claim); a 429 whose body has `error.type == "usage_limit_reached"` is
never retried, for any flags, attempt count or budget; an HTTP 5xx
failure is retried iff `retry_5xx`; any other HTTP status is never
retried; `Timeout`/`Network` are retried iff `retry_transport`; every
other error is never retried. -/
theorem C2_classification (ro : RetryOn) (a m status : Nat)
    (body : Option BodyContent) (headers : Option RetryAfterValue)
    (msg : String) (tag : Nat) (h : a < m) :
    (status = 429 →
      ro.should_retry (TransportError.Http status body headers) a m
        = (ro.retry_429 && !is_non_retryable_429 body)) ∧
    (500 ≤ status → status < 600 →
      ro.should_retry (TransportError.Http status body headers) a m
        = ro.retry_5xx) ∧
    (status ≠ 429 → ¬ (500 ≤ status ∧ status < 600) →
      ro.should_retry (TransportError.Http status body headers) a m = false) ∧
    ro.should_retry TransportError.Timeout a m = ro.retry_transport ∧
    ro.should_retry (TransportError.Network msg) a m = ro.retry_transport ∧
    ro.should_retry (TransportError.Other tag) a m = false ∧
    ro.should_retry TransportError.RetryLimit a m = false ∧
    (∀ (ro2 : RetryOn) (a2 m2 : Nat) (body2 : List (String × JVal))
        (headers2 : Option RetryAfterValue),
      ro2.should_retry
        (TransportError.Http 429
          (some (BodyContent.json (JVal.obj
            (("error", JVal.obj (("type", JVal.str "usage_limit_reached") :: body2)) :: []))))
          headers2) a2 m2 = false) := by
  have hna : ¬ (m ≤ a) := by omega
  refine ⟨?_, ?_, ?_, ?_, ?_, ?_, ?_, ?_⟩
  · intro hst
    subst hst
    simp [RetryOn.should_retry, hna]
  · intro h5 h6
    have hst : status ≠ 429 := by omega
    simp [RetryOn.should_retry, hna, hst, h5, h6]
  · intro hst hrange
    simp only [RetryOn.should_retry, if_neg hna]
    rw [if_neg hst]
    rcases Nat.lt_or_ge status 500 with hlo | hhi
    · simp [Nat.not_le.mpr hlo]
    · have h6 : ¬ (status < 600) := fun hc => hrange ⟨hhi, hc⟩
      simp [h6]
  · simp [RetryOn.should_retry, hna]
  · simp [RetryOn.should_retry, hna]
  · simp [RetryOn.should_retry, hna]
  · simp [RetryOn.should_retry, hna]
  · intro ro2 a2 m2 body2 headers2
    by_cases hm : m2 ≤ a2
    · exact should_retry_ge ro2 _ a2 m2 hm
    · have hmark : is_non_retryable_429
          (some (BodyContent.json (JVal.obj
            (("error", JVal.obj (("type", JVal.str "usage_limit_reached") :: body2)) :: []))))
          = true := by
        simp [is_non_retryable_429, JVal.get, JVal.as_str, List.find?]
      simp [RetryOn.should_retry, hm, hmark]

/-- C2 counterexample: at attempt 0 of a budget of 3, a 429 with no
body (hence no quota marker) is NOT retried when `retry_429` is unset,
though the claim says the flag is irrelevant. -/
theorem C2_counterexample :
    RetryOn.should_retry ⟨false, false, false⟩
      (TransportError.Http 429 none none) 0 3 = false ∧
    is_non_retryable_429 none = false :=
  ⟨rfl, rfl⟩

/-- C2 witness: with `retry_429` set and a markerless body, the 429 is
retried at attempt 0 of budget 3. -/
theorem C2_witness :
    RetryOn.should_retry ⟨true, false, false⟩
      (TransportError.Http 429 none none) 0 3
      = (true && !is_non_retryable_429 none) :=
  (C2_classification ⟨true, false, false⟩ 0 3 429 none none "" 0
    (by decide)).1 rfl

/-- C6: a 429 failure whose Retry-After header parses to a non-negative
number of seconds overrides the computed backoff with that duration
capped at 120 s; a 429 with a negative or unparsable (or absent)
Retry-After, and every non-429 failure, falls back to the computed
backoff. -/
theorem C6_retry_delay (policy : RetryPolicy) (body : Option BodyContent)
    (attempt : Nat) (j : ℚ) (s : ℚ) (msg : String) (tag : Nat) :
    (0 ≤ s →
      retry_delay policy
          (TransportError.Http 429 body (some (RetryAfterValue.parsed s))) attempt j
        = min (s * 1000) (MAX_BACKOFF_MS : ℚ)) ∧
    (s < 0 →
      retry_delay policy
          (TransportError.Http 429 body (some (RetryAfterValue.parsed s))) attempt j
        = (backoff policy.base_delay attempt j : ℚ)) ∧
    retry_delay policy
        (TransportError.Http 429 body (some RetryAfterValue.unparsable)) attempt j
      = (backoff policy.base_delay attempt j : ℚ) ∧
    retry_delay policy
        (TransportError.Http 429 body (some RetryAfterValue.missing)) attempt j
      = (backoff policy.base_delay attempt j : ℚ) ∧
    retry_delay policy (TransportError.Http 429 body none) attempt j
      = (backoff policy.base_delay attempt j : ℚ) ∧
    (∀ status headers, status ≠ 429 →
      retry_delay policy (TransportError.Http status body headers) attempt j
        = (backoff policy.base_delay attempt j : ℚ)) ∧
    retry_delay policy TransportError.Timeout attempt j
      = (backoff policy.base_delay attempt j : ℚ) ∧
    retry_delay policy (TransportError.Network msg) attempt j
      = (backoff policy.base_delay attempt j : ℚ) ∧
    retry_delay policy (TransportError.Other tag) attempt j
      = (backoff policy.base_delay attempt j : ℚ) ∧
    retry_delay policy TransportError.RetryLimit attempt j
      = (backoff policy.base_delay attempt j : ℚ) := by
  refine ⟨?_, ?_, ?_, ?_, ?_, ?_, ?_, ?_, ?_, ?_⟩
  · intro hs
    simp [retry_delay, retry_after_from_headers, not_lt.mpr hs]
  · intro hs
    simp [retry_delay, retry_after_from_headers, hs]
  · simp [retry_delay, retry_after_from_headers]
  · simp [retry_delay, retry_after_from_headers]
  · simp [retry_delay]
  · intro status headers hst
    cases headers with
    | none => simp [retry_delay]
    | some h => simp [retry_delay, hst]
  · simp [retry_delay]
  · simp [retry_delay]
  · simp [retry_delay]
  · simp [retry_delay]

/-- C6 witness: a 429 with Retry-After 5 s at attempt 1 delays by
`min(5000, 120000)` ms. -/
theorem C6_witness :
    retry_delay ⟨3, 100, ⟨true, true, true⟩⟩
        (TransportError.Http 429 none (some (RetryAfterValue.parsed 5))) 1 1
      = min ((5 : ℚ) * 1000) (MAX_BACKOFF_MS : ℚ) :=
  (C6_retry_delay ⟨3, 100, ⟨true, true, true⟩⟩ none 1 1 5 "" 0).1 (by norm_num)

/-- C4 (amended): `backoff(base, 0)` returns `base` exactly; for
`1 ≤ a < 2^32` and `base < 2^64`, `backoff(base, a)` with jitter
`j ∈ [0.9, 1.1)` lies in `(0.9·m − 1, 1.1·m]` for
`m = min(base · 2^(a−1), 120000)` — the jitter is applied after the
120 s cap, and the truncation to whole milliseconds can push the value
below `0.9·m` by less than 1 ms. -/
theorem C4_backoff_bounds (base a : Nat) (j : ℚ) (hb : base < 2 ^ 64)
    (ha1 : 1 ≤ a) (ha2 : a < 2 ^ 32) (hj1 : 9 / 10 ≤ j) (hj2 : j < 11 / 10) :
    backoff base 0 j = base ∧
    (9 : ℚ) / 10 * (min (base * 2 ^ (a - 1)) MAX_BACKOFF_MS : ℕ) - 1
        < (backoff base a j : ℚ) ∧
    (backoff base a j : ℚ)
        ≤ (11 : ℚ) / 10 * (min (base * 2 ^ (a - 1)) MAX_BACKOFF_MS : ℕ) := by
  have hne : a ≠ 0 := by omega
  have heq : backoff base a j
      = (Int.floor (((min (base * 2 ^ (a - 1)) MAX_BACKOFF_MS : ℕ) : ℚ) * j)).toNat := by
    rw [backoff_succ base a j hne, backoff_raw_eq base a hb ha1 ha2]
  refine ⟨rfl, ?_, ?_⟩
  · rw [heq]
    exact (floor_jitter_bounds _ j hj1 hj2).1
  · rw [heq]
    exact (floor_jitter_bounds _ j hj1 hj2).2

/-- C4 counterexample: at `base = 101 ms`, `a = 1` and jitter `0.9`
(which lies in the jitter range), the code returns 90 ms, while the
claimed interval `[0.9, 1.1] × min(101 · 2^0, 120000)` starts at
90.9 ms: the truncation to whole milliseconds falls below it. -/
theorem C4_counterexample :
    backoff 101 1 (9 / 10) = 90 ∧
    min (101 * 2 ^ (1 - 1)) MAX_BACKOFF_MS = 101 ∧
    ¬ ((9 : ℚ) / 10 * 101 ≤ (backoff 101 1 (9 / 10) : ℚ)) := by
  have h : backoff 101 1 (9 / 10) = 90 := by
    norm_num [backoff, MAX_BACKOFF_MS]
    rfl
  refine ⟨h, by norm_num [MAX_BACKOFF_MS], ?_⟩
  rw [h]
  norm_num

/-- C4 witness: the amended bounds at `base = 100`, `a = 1`, `j = 1`. -/
theorem C4_witness :
    backoff 100 0 1 = 100 ∧
    (9 : ℚ) / 10 * (min (100 * 2 ^ (1 - 1)) MAX_BACKOFF_MS : ℕ) - 1
        < (backoff 100 1 1 : ℚ) ∧
    (backoff 100 1 1 : ℚ)
        ≤ (11 : ℚ) / 10 * (min (100 * 2 ^ (1 - 1)) MAX_BACKOFF_MS : ℕ) :=
  C4_backoff_bounds 100 1 1 (by norm_num) (by norm_num) (by norm_num)
    (by norm_num) (by norm_num)

/-- C9 (amended): for every base delay and every attempt `a ≥ 1`, the
delay returned by `backoff` with jitter in `[0.9, 1.1)` is strictly
below 132000 ms (1.1 × the 120000 ms cap), the jitter being applied
after the cap. Attempt 0 is excluded: there `backoff` returns the base
delay unchanged and uncapped. -/
theorem C9_backoff_upper (base a : Nat) (j : ℚ) (ha : 1 ≤ a)
    (hj1 : 9 / 10 ≤ j) (hj2 : j < 11 / 10) :
    backoff base a j < 132000 := by
  have hne : a ≠ 0 := by omega
  rw [backoff_succ base a j hne]
  exact toNat_floor_jitter_lt _ j (min_le_right _ _) hj1 hj2

/-- C9 counterexample: the claim quantifies over every attempt, but
`backoff(base, 0)` returns the base delay unchanged, so a base of
200000 ms yields a delay of 200000 ms, not below 132000 ms. -/
theorem C9_counterexample :
    backoff 200000 0 1 = 200000 ∧ ¬ (backoff 200000 0 1 < 132000) := by
  have h : backoff 200000 0 1 = 200000 := rfl
  exact ⟨h, by rw [h]; omega⟩

/-- C9 witness: the amended bound at `base = 200000`, `a = 1`, `j = 1`. -/
theorem C9_witness : backoff 200000 1 1 < 132000 :=
  C9_backoff_upper 200000 1 1 (by norm_num) (by norm_num) (by norm_num)

set_option maxRecDepth 8000 in
/-- C5: `is_refusal` returns `false` whenever tool calls (side effects)
occurred; `false` whenever the whitespace-separated word count reaches
100; otherwise `true` iff the lowercased text contains a phrase of the
fixed lexicon. Concretely: the sample refusal text is detected; padding
it past 100 words defeats detection; tool calls defeat detection. -/
theorem C5_is_refusal :
    (∀ text : String, is_refusal text true = false) ∧
    (∀ (text : String) (b : Bool), REFUSAL_WORD_LIMIT ≤ word_count text →
      is_refusal text b = false) ∧
    (∀ text : String, ¬ REFUSAL_WORD_LIMIT ≤ word_count text →
      (is_refusal text false = true ↔
        ∃ ind ∈ REFUSAL_INDICATORS,
          contains_substr ind (to_lowercase text) = true)) ∧
    is_refusal ("I" ++ apos ++ "m sorry I can" ++ apos ++ "t do that.") false
      = true ∧
    is_refusal (String.join (List.replicate 100 "sorry ") ++
      ("I" ++ apos ++ "m sorry I can" ++ apos ++ "t do that.")) false = false ∧
    is_refusal ("I" ++ apos ++ "m sorry I can" ++ apos ++ "t do that.") true
      = false := by
  refine ⟨?_, ?_, ?_, ?_, ?_, ?_⟩
  · intro text
    simp [is_refusal]
  · intro text b h
    cases b
    · simp [is_refusal, h]
    · simp [is_refusal]
  · intro text h
    simp [is_refusal, h, List.any_eq_true]
  · decide
  · decide
  · decide

set_option maxRecDepth 8000 in
/-- C5 witness: the 100-word cutoff applied, via the theorem, to the
padded sample text. -/
theorem C5_witness :
    is_refusal (String.join (List.replicate 100 "sorry ") ++
      ("I" ++ apos ++ "m sorry I can" ++ apos ++ "t do that.")) false = false :=
  C5_is_refusal.2.1
    (String.join (List.replicate 100 "sorry ") ++
      ("I" ++ apos ++ "m sorry I can" ++ apos ++ "t do that.")) false
    (by decide)

/-- C7: the effective request-retry limit never exceeds the hard
ceiling 200 and the effective stream-reconnect limit never exceeds 100;
a configured count above a ceiling is clamped to the ceiling and is in
particular never the caller's raw request. -/
theorem C7_retry_ceilings (p : ModelProviderInfo) :
    p.effective_request_max_retries ≤ MAX_REQUEST_MAX_RETRIES ∧
    p.effective_stream_max_retries ≤ MAX_STREAM_MAX_RETRIES ∧
    (∀ v, p.request_max_retries = some v → MAX_REQUEST_MAX_RETRIES < v →
      p.effective_request_max_retries = MAX_REQUEST_MAX_RETRIES ∧
      p.effective_request_max_retries ≠ v) ∧
    (∀ v, p.stream_max_retries = some v → MAX_STREAM_MAX_RETRIES < v →
      p.effective_stream_max_retries = MAX_STREAM_MAX_RETRIES ∧
      p.effective_stream_max_retries ≠ v) := by
  refine ⟨min_le_right _ _, min_le_right _ _, ?_, ?_⟩
  · intro v hv hlt
    have he : p.effective_request_max_retries = MAX_REQUEST_MAX_RETRIES := by
      unfold ModelProviderInfo.effective_request_max_retries
      rw [hv]
      simp only [Option.getD_some]
      omega
    exact ⟨he, by rw [he]; omega⟩
  · intro v hv hlt
    have he : p.effective_stream_max_retries = MAX_STREAM_MAX_RETRIES := by
      unfold ModelProviderInfo.effective_stream_max_retries
      rw [hv]
      simp only [Option.getD_some]
      omega
    exact ⟨he, by rw [he]; omega⟩

/-- C7 witness: a provider configured with 500 request retries is
clamped to 200, not given its raw request. -/
theorem C7_witness :
    ModelProviderInfo.effective_request_max_retries
        ⟨none, none, some 500, some 500⟩ = MAX_REQUEST_MAX_RETRIES ∧
    ModelProviderInfo.effective_request_max_retries
        ⟨none, none, some 500, some 500⟩ ≠ 500 :=
  (C7_retry_ceilings ⟨none, none, some 500, some 500⟩).2.2.1 500 rfl (by decide)

/-- C8: a provider with no declared credential variable yields no
credential without error; the Anthropic variables consult the
OAuth-token variable first and the plain API-key variable only as a
fallback, failing with an `EnvVar` error carrying the variable names and
the provider's instructions when neither holds a non-blank value; any
other declared variable returns its non-blank value or the same error. -/
theorem C8_api_key (env : String → Option String) (p : ModelProviderInfo) :
    (p.env_key = none → p.api_key env = ApiKeyResult.ok none) ∧
    (∀ k, p.env_key = some k →
      (k = ANTHROPIC_API_KEY_ENV_VAR ∨ k = ANTHROPIC_OAUTH_TOKEN_ENV_VAR) →
      (∀ t, read_env_value env ANTHROPIC_OAUTH_TOKEN_ENV_VAR = some t →
        p.api_key env = ApiKeyResult.ok (some t)) ∧
      (read_env_value env ANTHROPIC_OAUTH_TOKEN_ENV_VAR = none →
        ∀ t, read_env_value env ANTHROPIC_API_KEY_ENV_VAR = some t →
          p.api_key env = ApiKeyResult.ok (some t)) ∧
      (read_env_value env ANTHROPIC_OAUTH_TOKEN_ENV_VAR = none →
        read_env_value env ANTHROPIC_API_KEY_ENV_VAR = none →
          p.api_key env = ApiKeyResult.envVarErr
            (ANTHROPIC_OAUTH_TOKEN_ENV_VAR ++ " or " ++ ANTHROPIC_API_KEY_ENV_VAR)
            p.env_key_instructions)) ∧
    (∀ k, p.env_key = some k →
      ¬ (k = ANTHROPIC_API_KEY_ENV_VAR ∨ k = ANTHROPIC_OAUTH_TOKEN_ENV_VAR) →
      (∀ v, read_env_value env k = some v →
        p.api_key env = ApiKeyResult.ok (some v)) ∧
      (read_env_value env k = none →
        p.api_key env = ApiKeyResult.envVarErr k p.env_key_instructions)) := by
  refine ⟨?_, ?_, ?_⟩
  · intro h
    simp [ModelProviderInfo.api_key, h]
  · intro k hk hanth
    refine ⟨?_, ?_, ?_⟩
    · intro t ht
      simp only [ModelProviderInfo.api_key, hk]
      rw [if_pos hanth, ht]
      simp [Option.or]
    · intro hn t ht
      simp only [ModelProviderInfo.api_key, hk]
      rw [if_pos hanth, hn, ht]
      simp [Option.or]
    · intro hn1 hn2
      simp only [ModelProviderInfo.api_key, hk]
      rw [if_pos hanth, hn1, hn2]
      simp [Option.or]
  · intro k hk hnot
    constructor
    · intro v hv
      simp only [ModelProviderInfo.api_key, hk]
      rw [if_neg hnot, hv]
    · intro hn
      simp only [ModelProviderInfo.api_key, hk]
      rw [if_neg hnot, hn]

lemma eraseReg_self (reg : Registry) (c : Nat) : eraseReg reg c c = none := by
  simp [eraseReg]

lemma eraseReg_other (reg : Registry) (c d : Nat) (h : d ≠ c) :
    eraseReg reg c d = reg d := by
  simp [eraseReg, h]

lemma setReg_self (reg : Registry) (c : Nat) (l : List Subscriber) :
    setReg reg c l c = some l := by
  simp [setReg]

lemma setReg_other (reg : Registry) (c d : Nat) (l : List Subscriber) (h : d ≠ c) :
    setReg reg c l d = reg d := by
  simp [setReg, h]

lemma isEmpty_false_of_ne_nil {α : Type} {l : List α} (h : l ≠ []) :
    l.isEmpty = false := by
  cases l with
  | nil => exact absurd rfl h
  | cons x xs => rfl

/-- A subscriber whose channel is not closed at send time keeps its
spot in the pre-send prune (monotone closure: a closed channel never
reopens). -/
lemma mem_kept_of_open {senders : List Subscriber} {s : Subscriber}
    (hmono : ∀ x ∈ senders, x.closedAtPrune = true →
      x.sendState = ChannelState.closed)
    (hs : s ∈ senders) (hopen : s.sendState ≠ ChannelState.closed) :
    s ∈ senders.filter (fun x => !x.closedAtPrune) := by
  refine List.mem_filter.mpr ⟨hs, ?_⟩
  cases hcp : s.closedAtPrune with
  | false => rfl
  | true => exact absurd (hmono s hs hcp) hopen

/-- When no channel in the list is full, the send loop completes,
delivering exactly to the ready channels and failing iff some channel
is closed. -/
lemma sendAll_eq_of_no_full (l : List Subscriber)
    (h : ∀ s ∈ l, s.sendState ≠ ChannelState.full) :
    sendAll l = SendResult.completed
      (l.filter (fun s => s.sendState == ChannelState.ready))
      (l.any (fun s => s.sendState == ChannelState.closed)) := by
  induction l with
  | nil => rfl
  | cons s rest ih =>
    have hs := h s (List.mem_cons_self s rest)
    have hrest : ∀ x ∈ rest, x.sendState ≠ ChannelState.full :=
      fun x hx => h x (List.mem_cons_of_mem s hx)
    cases hcs : s.sendState with
    | ready =>
      simp only [sendAll, hcs, ih hrest]
      simp [List.filter_cons, List.any_cons, hcs]
    | closed =>
      simp only [sendAll, hcs, ih hrest]
      simp [List.filter_cons, List.any_cons, hcs]
    | full => exact absurd hcs hs

/-- C3 (amended): a send FAILURE occurs only when the subscriber's
channel is closed, and such a failure does not stop delivery: provided
no subscriber of the conversation has a full, undrained channel, the
broadcast round completes, every subscriber whose channel is ready
receives the event, no subscriber whose channel is closed at send time
survives the round in the registry, and no conversation retains an
empty subscriber list. A full-but-open channel is not a send failure:
it blocks the round (see the counterexample), which is why the no-full
hypothesis is required. Hypotheses: closure is permanent
(`closedAtPrune = true → sendState = closed`), and the registry holds
no empty list going in. -/
theorem C3_broadcast_round (reg : Registry) (c : Nat)
    (hmono : ∀ d l s, reg d = some l → s ∈ l →
      s.closedAtPrune = true → s.sendState = ChannelState.closed)
    (hne : ∀ d l, reg d = some l → l ≠ [])
    (hnofull : ∀ l s, reg c = some l → s ∈ l →
      s.sendState ≠ ChannelState.full) :
    (broadcastRound reg c).isStalled = false ∧
    (∀ l s, reg c = some l → s ∈ l → s.sendState = ChannelState.ready →
      s ∈ (broadcastRound reg c).delivered) ∧
    (∀ l s, (broadcastRound reg c).registry c = some l → s ∈ l →
      s.sendState ≠ ChannelState.closed) ∧
    (∀ d l, (broadcastRound reg c).registry d = some l → l ≠ []) := by
  cases hc : reg c with
  | none =>
    have hbr : broadcastRound reg c = RoundOutcome.completed reg [] := by
      simp [broadcastRound, hc]
    rw [hbr]
    dsimp only [RoundOutcome.isStalled, RoundOutcome.delivered,
      RoundOutcome.registry]
    refine ⟨rfl, ?_, ?_, ?_⟩
    · intro l s hl
      exact Option.noConfusion hl
    · intro l s hl
      rw [hc] at hl
      exact Option.noConfusion hl
    · intro d l hl
      exact hne d l hl
  | some senders =>
    have hmono2 : ∀ x ∈ senders, x.closedAtPrune = true →
        x.sendState = ChannelState.closed :=
      fun x hx => hmono c senders x hc hx
    have hnofull2 : ∀ x ∈ senders, x.sendState ≠ ChannelState.full :=
      fun x hx => hnofull senders x hc hx
    have hkeptfull : ∀ x ∈ senders.filter (fun s => !s.closedAtPrune),
        x.sendState ≠ ChannelState.full :=
      fun x hx => hnofull2 x (List.mem_filter.mp hx).1
    have hsend := sendAll_eq_of_no_full _ hkeptfull
    by_cases hk : senders.filter (fun s => !s.closedAtPrune) = []
    · have hbr : broadcastRound reg c
          = RoundOutcome.completed (eraseReg reg c) [] := by
        simp [broadcastRound, hc, hk]
      rw [hbr]
      dsimp only [RoundOutcome.isStalled, RoundOutcome.delivered,
        RoundOutcome.registry]
      refine ⟨rfl, ?_, ?_, ?_⟩
      · intro l s hl hs hready
        injection hl with he
        subst he
        have hopen : s.sendState ≠ ChannelState.closed := by
          rw [hready]
          exact fun hcl => ChannelState.noConfusion hcl
        have hmem := mem_kept_of_open hmono2 hs hopen
        rw [hk] at hmem
        exact absurd hmem (List.not_mem_nil s)
      · intro l s hl
        rw [eraseReg_self] at hl
        exact Option.noConfusion hl
      · intro d l hl
        by_cases hd : d = c
        · subst hd
          rw [eraseReg_self] at hl
          exact Option.noConfusion hl
        · rw [eraseReg_other reg c d hd] at hl
          exact hne d l hl
    · have hkie : (senders.filter (fun s => !s.closedAtPrune)).isEmpty = false :=
        isEmpty_false_of_ne_nil hk
      by_cases hfail : (senders.filter (fun s => !s.closedAtPrune)).any
          (fun s => s.sendState == ChannelState.closed) = true
      · by_cases hk2 : (senders.filter (fun s => !s.closedAtPrune)).filter
            (fun s => !(s.sendState == ChannelState.closed)) = []
        · have hbr : broadcastRound reg c = RoundOutcome.completed
              (eraseReg (setReg reg c
                (senders.filter (fun s => !s.closedAtPrune))) c)
              ((senders.filter (fun s => !s.closedAtPrune)).filter
                (fun s => s.sendState == ChannelState.ready)) := by
            simp [broadcastRound, hc, hkie, hsend, hfail, hk2]
          rw [hbr]
          dsimp only [RoundOutcome.isStalled, RoundOutcome.delivered,
            RoundOutcome.registry]
          refine ⟨rfl, ?_, ?_, ?_⟩
          · intro l s hl hs hready
            injection hl with he
            subst he
            have hopen : s.sendState ≠ ChannelState.closed := by
              rw [hready]
              exact fun hcl => ChannelState.noConfusion hcl
            refine List.mem_filter.mpr ⟨mem_kept_of_open hmono2 hs hopen, ?_⟩
            rw [hready]
            rfl
          · intro l s hl
            rw [eraseReg_self] at hl
            exact Option.noConfusion hl
          · intro d l hl
            by_cases hd : d = c
            · subst hd
              rw [eraseReg_self] at hl
              exact Option.noConfusion hl
            · rw [eraseReg_other _ c d hd, setReg_other _ c d _ hd] at hl
              exact hne d l hl
        · have hbr : broadcastRound reg c = RoundOutcome.completed
              (setReg (setReg reg c
                (senders.filter (fun s => !s.closedAtPrune))) c
                ((senders.filter (fun s => !s.closedAtPrune)).filter
                  (fun s => !(s.sendState == ChannelState.closed))))
              ((senders.filter (fun s => !s.closedAtPrune)).filter
                (fun s => s.sendState == ChannelState.ready)) := by
            have hk2b : senders.filter
                (fun a => !(a.sendState == ChannelState.closed)
                  && !a.closedAtPrune) ≠ [] := by
              simpa using hk2
            simp [broadcastRound, hc, hkie, hsend, hfail,
              isEmpty_false_of_ne_nil hk2b]
          rw [hbr]
          dsimp only [RoundOutcome.isStalled, RoundOutcome.delivered,
            RoundOutcome.registry]
          refine ⟨rfl, ?_, ?_, ?_⟩
          · intro l s hl hs hready
            injection hl with he
            subst he
            have hopen : s.sendState ≠ ChannelState.closed := by
              rw [hready]
              exact fun hcl => ChannelState.noConfusion hcl
            refine List.mem_filter.mpr ⟨mem_kept_of_open hmono2 hs hopen, ?_⟩
            rw [hready]
            rfl
          · intro l s hl hs
            rw [setReg_self] at hl
            injection hl with he
            subst he
            have h2 := (List.mem_filter.mp hs).2
            simpa using h2
          · intro d l hl
            by_cases hd : d = c
            · subst hd
              rw [setReg_self] at hl
              injection hl with he
              rw [← he]
              exact hk2
            · rw [setReg_other _ c d _ hd, setReg_other _ c d _ hd] at hl
              exact hne d l hl
      · have hfail2 : (senders.filter (fun s => !s.closedAtPrune)).any
            (fun s => s.sendState == ChannelState.closed) = false := by
          cases h : (senders.filter (fun s => !s.closedAtPrune)).any
              (fun s => s.sendState == ChannelState.closed) with
          | false => rfl
          | true => exact absurd h hfail
        have hbr : broadcastRound reg c = RoundOutcome.completed
            (setReg reg c (senders.filter (fun s => !s.closedAtPrune)))
            ((senders.filter (fun s => !s.closedAtPrune)).filter
              (fun s => s.sendState == ChannelState.ready)) := by
          simp [broadcastRound, hc, hkie, hsend, hfail2]
        rw [hbr]
        dsimp only [RoundOutcome.isStalled, RoundOutcome.delivered,
          RoundOutcome.registry]
        refine ⟨rfl, ?_, ?_, ?_⟩
        · intro l s hl hs hready
          injection hl with he
          subst he
          have hopen : s.sendState ≠ ChannelState.closed := by
            rw [hready]
            exact fun hcl => ChannelState.noConfusion hcl
          refine List.mem_filter.mpr ⟨mem_kept_of_open hmono2 hs hopen, ?_⟩
          rw [hready]
          rfl
        · intro l s hl hs
          rw [setReg_self] at hl
          injection hl with he
          subst he
          have hall := List.any_eq_false.mp hfail2
          have h2 := hall s hs
          simp only [beq_iff_eq] at h2
          exact h2
        · intro d l hl
          by_cases hd : d = c
          · subst hd
            rw [setReg_self] at hl
            injection hl with he
            rw [← he]
            exact hk
          · rw [setReg_other _ c d _ hd] at hl
            exact hne d l hl

/-- C3 counterexample: a subscriber whose channel is full but open is
NOT a send failure that the round absorbs — the send loop blocks on it
(tokio `send(..).await` waits for capacity), so the round stalls, the
remaining live subscriber receives nothing, and the full subscriber is
not removed from the registry, refuting both the continued-delivery and
the pruned-within-the-round parts of the claim for the full-channel
case. -/
theorem C3_counterexample :
    (broadcastRound
        (fun d => if d = 0 then
          some [Subscriber.mk 1 false ChannelState.full,
                Subscriber.mk 2 false ChannelState.ready]
        else none) 0).isStalled = true ∧
    (broadcastRound
        (fun d => if d = 0 then
          some [Subscriber.mk 1 false ChannelState.full,
                Subscriber.mk 2 false ChannelState.ready]
        else none) 0).delivered = [] ∧
    (broadcastRound
        (fun d => if d = 0 then
          some [Subscriber.mk 1 false ChannelState.full,
                Subscriber.mk 2 false ChannelState.ready]
        else none) 0).registry 0
      = some [Subscriber.mk 1 false ChannelState.full,
              Subscriber.mk 2 false ChannelState.ready] :=
  ⟨rfl, rfl, rfl⟩

/-- C8 witness: with only `ANTHROPIC_OAUTH_TOKEN` set (to a padded
value), the Anthropic provider resolves to its trimmed token. -/
theorem C8_witness :
    ModelProviderInfo.api_key
        ⟨some "ANTHROPIC_API_KEY", some "instr", none, none⟩
        (fun v => if v = "ANTHROPIC_OAUTH_TOKEN" then some " tok " else none)
      = ApiKeyResult.ok (some "tok") :=
  ((C8_api_key
      (fun v => if v = "ANTHROPIC_OAUTH_TOKEN" then some " tok " else none)
      ⟨some "ANTHROPIC_API_KEY", some "instr", none, none⟩).2.1
    "ANTHROPIC_API_KEY" rfl (Or.inl rfl)).1 "tok" (by decide)

/-- C3 witness: a conversation with one subscriber whose channel
closed between the pre-send prune and the send (its send fails) and one
ready subscriber after it: the round completes and the ready subscriber
still receives the event. -/
theorem C3_witness :
    Subscriber.mk 2 false ChannelState.ready ∈
      (broadcastRound
        (fun d => if d = 0 then
          some [Subscriber.mk 1 false ChannelState.closed,
                Subscriber.mk 2 false ChannelState.ready]
        else none) 0).delivered :=
  (C3_broadcast_round
    (fun d => if d = 0 then
      some [Subscriber.mk 1 false ChannelState.closed,
            Subscriber.mk 2 false ChannelState.ready]
    else none) 0
    (by
      intro d l s h1 h2 h3
      have h1b : (if d = 0 then
          some [Subscriber.mk 1 false ChannelState.closed,
                Subscriber.mk 2 false ChannelState.ready]
        else none) = some l := h1
      by_cases hd : d = 0
      · rw [if_pos hd] at h1b
        injection h1b with he
        subst he
        simp only [List.mem_cons, List.not_mem_nil, or_false] at h2
        rcases h2 with rfl | rfl
        · exact Bool.noConfusion h3
        · exact Bool.noConfusion h3
      · rw [if_neg hd] at h1b
        exact Option.noConfusion h1b)
    (by
      intro d l h1
      have h1b : (if d = 0 then
          some [Subscriber.mk 1 false ChannelState.closed,
                Subscriber.mk 2 false ChannelState.ready]
        else none) = some l := h1
      by_cases hd : d = 0
      · rw [if_pos hd] at h1b
        injection h1b with he
        rw [← he]
        simp
      · rw [if_neg hd] at h1b
        exact Option.noConfusion h1b)
    (by
      intro l s h1 h2
      have h1b : (if (0 : Nat) = 0 then
          some [Subscriber.mk 1 false ChannelState.closed,
                Subscriber.mk 2 false ChannelState.ready]
        else none) = some l := h1
      rw [if_pos rfl] at h1b
      injection h1b with he
      subst he
      simp only [List.mem_cons, List.not_mem_nil, or_false] at h2
      rcases h2 with rfl | rfl
      · exact fun hf => ChannelState.noConfusion hf
      · exact fun hf => ChannelState.noConfusion hf)).2.1
    [Subscriber.mk 1 false ChannelState.closed,
     Subscriber.mk 2 false ChannelState.ready]
    (Subscriber.mk 2 false ChannelState.ready) rfl (by simp) rfl

/-- C10: the `stream_events` handler returns `BAD_REQUEST` on a
malformed conversation id and `NOT_FOUND` on a well-formed but unknown
one, leaving the subscriber registry untouched in both cases; only after
the conversation's existence is verified is the new channel appended to
the conversation's entry. -/
theorem C10_stream_events (known : Nat → Bool) (reg : Registry)
    (tx : Subscriber) :
    stream_events none known reg tx
      = (Except.error StreamError.badRequest, reg) ∧
    (∀ cid, known cid = false →
      stream_events (some cid) known reg tx
        = (Except.error StreamError.notFound, reg)) ∧
    (∀ cid, known cid = true →
      stream_events (some cid) known reg tx
        = (Except.ok cid, setReg reg cid (((reg cid).getD []) ++ [tx]))) := by
  refine ⟨rfl, ?_, ?_⟩
  · intro cid h
    simp [stream_events, h]
  · intro cid h
    simp [stream_events, h]

/-- C10 witness: an unknown conversation id yields `NOT_FOUND` and the
empty registry is returned unchanged. -/
theorem C10_witness :
    stream_events (some 7) (fun _ => false) (fun _ => none)
        (Subscriber.mk 0 false ChannelState.ready)
      = (Except.error StreamError.notFound, fun _ => none) :=
  (C10_stream_events (fun _ => false) (fun _ => none)
    (Subscriber.mk 0 false ChannelState.ready)).2.1 7 rfl

end Codex
